import Mathlib

/-!
Shallow embedding of the core of `src/youtube-downloader.tsx` (the media
acquisition orchestrator): format selection, compression planning, size
estimation, progress parsing (`parseSize`, `parseSpeed`, the progress
message builder inside `streamOutput`) and the terminal-outcome
classification performed in the `catch` block of `handleSubmit`.

JavaScript strings are modelled by Lean `String`; `undefined` string
fields are modelled by `""` (JS truthiness of both is false, and the
source only tests them for truthiness or appends them).  JS numbers are
modelled by `ℚ`; a `NaN` result of the parsing helpers is modelled by
`Option.none`.
-/

/-- JS `a || b` on strings (first truthy wins, `""` and `undefined` are falsy). -/
def jsOr (a b : String) : String := if a = "" then b else a

/-- JS `s.substring(0, 250)`. -/
def jsSubstringTo250 (s : String) : String := String.mk (s.data.take 250)

/-- Whether `pat` is a prefix of `s` (character lists). -/
def prefixChars : List Char → List Char → Bool
  | [], _ => true
  | _ :: _, [] => false
  | p :: ps, c :: cs => p == c && prefixChars ps cs

/-- Whether `pat` occurs as a contiguous substring of `s` (character lists);
models JS `s.includes(pat)`. -/
def listContains (pat : List Char) : List Char → Bool
  | [] => pat.isEmpty
  | c :: cs => prefixChars pat (c :: cs) || listContains pat cs

/-- JS `s.includes(pat)`. -/
def containsSubStr (s pat : String) : Bool := listContains pat.data s.data

theorem prefixChars_refl (l : List Char) : prefixChars l l = true := by
  induction l with
  | nil => rfl
  | cons c cs ih => simp [prefixChars, ih]

theorem listContains_append_self (a pat : List Char) :
    listContains pat (a ++ pat) = true := by
  induction a with
  | nil =>
    cases pat with
    | nil => rfl
    | cons c cs => simp [listContains, prefixChars_refl]
  | cons c cs ih => simp [listContains, ih]

theorem containsSubStr_append (a pat : String) :
    containsSubStr (a ++ pat) pat = true := by
  show listContains pat.data (a ++ pat).data = true
  rw [String.data_append]
  exact listContains_append_self a.data pat.data

theorem containsSubStr_empty (s : String) : containsSubStr s "" = true := by
  cases s with
  | mk data =>
    cases data with
    | nil => rfl
    | cons c cs => simp [containsSubStr, listContains, prefixChars]

/-- JS `s.replace(pat, rep)` with a plain-string pattern: replaces the
first occurrence only (character lists; `pat` is assumed nonempty, as in
the source where it is `"p"`). -/
def replaceFirstChars (pat rep : List Char) : List Char → List Char
  | [] => []
  | c :: cs =>
    if prefixChars pat (c :: cs) then rep ++ (c :: cs).drop pat.length
    else c :: replaceFirstChars pat rep cs

/-- JS `s.replace(pat, rep)` on strings (first occurrence only). -/
def jsReplaceFirst (s pat rep : String) : String :=
  String.mk (replaceFirstChars pat.data rep.data s.data)

/-! ## Format Selector (`handleSubmit`, mp4 branches)

The source builds `formatString` as an array of alternatives joined by
`"/"`.  We model the alternative list and the joined expression. -/

/-- Alternatives for `downloadType === "mp4_video_audio"`
(source lines 809–833). -/
def formatAlternativesVideoAudio (videoQuality : String) : List String :=
  if videoQuality ≠ "best" then
    let height := jsReplaceFirst videoQuality "p" ""
    [ "bestvideo[height<=" ++ height ++ "][ext=mp4]+bestaudio[ext=m4a]",
      "bestvideo[height<=" ++ height ++ "][ext=mp4]+bestaudio",
      "bestvideo[height<=" ++ height ++ "]+bestaudio[ext=m4a]",
      "bestvideo[height<=" ++ height ++ "]+bestaudio",
      "best[height<=" ++ height ++ "][ext=mp4]",
      "best[height<=" ++ height ++ "]",
      "best[ext=mp4]",
      "best" ]
  else
    [ "bestvideo[ext=mp4]+bestaudio[ext=m4a]",
      "bestvideo[ext=mp4]+bestaudio",
      "bestvideo+bestaudio[ext=m4a]",
      "bestvideo+bestaudio",
      "best[ext=mp4]",
      "best" ]

/-- Alternatives for `downloadType === "mp4_video_only"`
(source lines 862–873). -/
def formatAlternativesVideoOnly (videoQuality : String) : List String :=
  if videoQuality ≠ "best" then
    let height := jsReplaceFirst videoQuality "p" ""
    [ "bestvideo[height<=" ++ height ++ "][ext=mp4]",
      "bestvideo[height<=" ++ height ++ "]",
      "best[height<=" ++ height ++ "][ext=mp4]",
      "best[height<=" ++ height ++ "]" ]
  else
    [ "bestvideo[ext=mp4]", "bestvideo", "best[ext=mp4]", "best" ]

/-- The joined `-f` expression for video+audio mode. -/
def formatStringVideoAudio (videoQuality : String) : String :=
  String.intercalate "/" (formatAlternativesVideoAudio videoQuality)

/-- The joined `-f` expression for video-only mode. -/
def formatStringVideoOnly (videoQuality : String) : String :=
  String.intercalate "/" (formatAlternativesVideoOnly videoQuality)

/-! ## Compression Planner (`handleSubmit`, postprocessor args) -/

/-- The `crfValue` switch shared by both mp4 branches
(source lines 843–857 and 882–896): initialised `"23"` and
overwritten per level; `custom` takes the user string verbatim. -/
def crfValue (compressionLevel compressionCrf : String) : String :=
  if compressionLevel = "light" then "20"
  else if compressionLevel = "medium" then "23"
  else if compressionLevel = "high" then "28"
  else if compressionLevel = "custom" then compressionCrf
  else "23"

/-- Value of `--postprocessor-args` pushed in video+audio mode, `none` when
`compressionLevel === "none"` (source lines 842–859). -/
def postprocessorArgsVideoAudio (compressionLevel compressionCrf : String) :
    Option String :=
  if compressionLevel ≠ "none" then
    some ("ffmpeg:-c:v libx264 -crf " ++ crfValue compressionLevel compressionCrf
      ++ " -c:a aac -b:a 128k")
  else none

/-- Value of `--postprocessor-args` pushed in video-only mode, `none` when
`compressionLevel === "none"` (source lines 881–898). -/
def postprocessorArgsVideoOnly (compressionLevel compressionCrf : String) :
    Option String :=
  if compressionLevel ≠ "none" then
    some ("ffmpeg:-c:v libx264 -crf " ++ crfValue compressionLevel compressionCrf)
  else none

/-! ## Size Estimator (`getVideoInfoAndEstimate`, source lines 589–658)

JS numbers are modelled by `ℚ`; `parseInt(compressionCrf)` is modelled by
passing the parsed CRF as a rational parameter. -/

/-- The video bitrate table (kbps), source lines 594–605; `videoBitrate`
stays `0` for an unrecognised quality string. -/
def videoBitrate (videoQuality : String) : ℚ :=
  if videoQuality = "best" ∨ videoQuality = "2160p" then 8000
  else if videoQuality = "1440p" then 4000
  else if videoQuality = "1080p" then 2000
  else if videoQuality = "720p" then 1000
  else if videoQuality = "480p" then 500
  else 0

/-- The compression-factor switch, source lines 609–626: run only when
`compressionLevel !== "none"`, initialised to `1` (so an unrecognised
level keeps factor `1`). -/
def compressionFactor (compressionLevel : String) (crf : ℚ) : ℚ :=
  if compressionLevel = "light" then 0.8
  else if compressionLevel = "medium" then 0.6
  else if compressionLevel = "high" then 0.4
  else if compressionLevel = "custom" then max 0.3 (1 - (crf - 18) * 0.04)
  else 1

/-- The mp3 audio bitrate table (kbps), source lines 639–653. -/
def mp3Bitrate (mp3Quality : String) : ℚ :=
  if mp3Quality = "0" then 245
  else if mp3Quality = "2" then 190
  else if mp3Quality = "5" then 130
  else if mp3Quality = "320K" then 320
  else 128

/-- The `estimatedMB` value as computed by `getVideoInfoAndEstimate`
(source lines 590–658). -/
def estimatedMB (downloadType videoQuality compressionLevel : String)
    (crf : ℚ) (mp3Quality : String) (duration : ℚ) : ℚ :=
  if downloadType = "mp4_video_audio" ∨ downloadType = "mp4_video_only" then
    let vb := videoBitrate videoQuality
    let vb := if compressionLevel ≠ "none" then
        vb * compressionFactor compressionLevel crf
      else vb
    let est := vb * duration / (8 * 1024)
    if downloadType = "mp4_video_audio" then
      est + (if compressionLevel ≠ "none" then (128 : ℚ) else 256) * duration / (8 * 1024)
    else est
  else if downloadType = "mp3_audio" then
    mp3Bitrate mp3Quality * duration / (8 * 1024)
  else if downloadType = "m4a_audio" then
    256 * duration / (8 * 1024)
  else 0

/-! ## Progress Parser (`parseSize`, `parseSpeed`, `streamOutput`)

The source matches `/([\d.]+)(\w+)/` (size) and `/([\d.]+)(\w+)\/s/`
(speed) against the captured size/speed strings.  We model the regex
engine and its leftmost-match search with greedy quantifiers and group-1
backtracking over character lists. -/

/-- Character class `[\d.]`. -/
def isDigitDotChar (c : Char) : Bool := c.isDigit || c == '.'

/-- Character class `\w` (ASCII word character). -/
def isWordChar (c : Char) : Bool := c.isAlpha || c.isDigit || c == '_'

/-- Backtracking over the greedy group `([\d.]+)`: `run` is the maximal
`[\d.]` run, `rest` what follows it.  Try giving group 1 the first `k`
characters of `run`, largest `k` first; group 2 `(\w+)` then takes the
maximal word run at the split point (nothing follows it in the size
pattern, so greediness needs no further backtracking). -/
def splitSizeGroups (run rest : List Char) : Nat → Option (List Char × List Char)
  | 0 => none
  | k + 1 =>
    let rem := run.drop (k + 1) ++ rest
    let wrun := rem.takeWhile isWordChar
    if wrun ≠ [] then some (run.take (k + 1), wrun)
    else splitSizeGroups run rest k

/-- Try to match `([\d.]+)(\w+)` anchored at the head of `l`. -/
def matchSizeAt (l : List Char) : Option (List Char × List Char) :=
  let run := l.takeWhile isDigitDotChar
  if run = [] then none
  else splitSizeGroups run (l.drop run.length) run.length

/-- Leftmost match of `([\d.]+)(\w+)` in `l` (JS `String.prototype.match`). -/
def findSizeMatch : List Char → Option (List Char × List Char)
  | [] => none
  | c :: cs =>
    match matchSizeAt (c :: cs) with
    | some r => some r
    | none => findSizeMatch cs

/-- Like `splitSizeGroups` but for `([\d.]+)(\w+)\/s`: after the maximal
word run the literal `/s` must follow (giving back a word character would
put a word character where `/` is required, so only the maximal word run
can match group 2). -/
def splitSpeedGroups (run rest : List Char) : Nat → Option (List Char × List Char)
  | 0 => none
  | k + 1 =>
    let rem := run.drop (k + 1) ++ rest
    let wrun := rem.takeWhile isWordChar
    let after := rem.drop wrun.length
    if wrun ≠ [] ∧ after.take 2 = ['/', 's'] then some (run.take (k + 1), wrun)
    else splitSpeedGroups run rest k

/-- Try to match `([\d.]+)(\w+)\/s` anchored at the head of `l`. -/
def matchSpeedAt (l : List Char) : Option (List Char × List Char) :=
  let run := l.takeWhile isDigitDotChar
  if run = [] then none
  else splitSpeedGroups run (l.drop run.length) run.length

/-- Leftmost match of `([\d.]+)(\w+)\/s` in `l`. -/
def findSpeedMatch : List Char → Option (List Char × List Char)
  | [] => none
  | c :: cs =>
    match matchSpeedAt (c :: cs) with
    | some r => some r
    | none => findSpeedMatch cs

/-- Numeric value of a digit list. -/
def digitsToNat (l : List Char) : Nat :=
  l.foldl (fun acc c => 10 * acc + (c.toNat - 48)) 0

/-- JS `parseFloat` restricted to inputs drawn from `[\d.]+` (all group-1
captures are): integer digits, optionally a dot and fraction digits;
anything after a second dot is ignored; `none` models `NaN` (no leading
digits and no digit right after the dot). -/
def jsParseFloat (l : List Char) : Option ℚ :=
  let intPart := l.takeWhile Char.isDigit
  let rest := l.drop intPart.length
  match rest with
  | '.' :: rest2 =>
    let fracPart := rest2.takeWhile Char.isDigit
    if intPart = [] ∧ fracPart = [] then none
    else some ((digitsToNat intPart : ℚ) + (digitsToNat fracPart : ℚ) / (10 ^ fracPart.length : ℚ))
  | _ => if intPart = [] then none else some (digitsToNat intPart)

/-- The unit switch shared verbatim by `parseSize` and `parseSpeed`
(source lines 687–699 and 709–721). -/
def unitToMB (unit : String) (value : ℚ) : ℚ :=
  if unit = "kb" ∨ unit = "kib" then value / 1024
  else if unit = "mb" ∨ unit = "mib" then value
  else if unit = "gb" ∨ unit = "gib" then value * 1024
  else value / 1024 / 1024

/-- Model of `parseSize` (source lines 680–700); `some 0` when the regex does not
match, `none` models a `NaN` result of `parseFloat`. -/
def parseSize (sizeStr : String) : Option ℚ :=
  match findSizeMatch sizeStr.data with
  | none => some 0
  | some (numChars, unitChars) =>
    match jsParseFloat numChars with
    | none => none
    | some value => some (unitToMB (String.mk (unitChars.map Char.toLower)) value)

/-- Model of `parseSpeed` (source lines 702–722). -/
def parseSpeed (speedStr : String) : Option ℚ :=
  match findSpeedMatch speedStr.data with
  | none => some 0
  | some (numChars, unitChars) =>
    match jsParseFloat numChars with
    | none => none
    | some value => some (unitToMB (String.mk (unitChars.map Char.toLower)) value)

/-! ### ETA and the progress message (`streamOutput`, source lines 724–772)

Each conditional `progressMsg +=` statement of the source is modelled as an
optional segment of a `ProgressMsg`; the displayed string is their
concatenation.  The digit rendering of `toFixed(1)` follows the ECMAScript
rounding rule (nearest multiple of 1/10, ties toward the larger value). -/

/-- Truncation toward zero, as JS integer conversion in `%`. -/
def jsTrunc (q : ℚ) : ℤ := if q < 0 then ⌈q⌉ else ⌊q⌋

/-- JS remainder `a % b` (sign follows the dividend). -/
def jsMod (a b : ℚ) : ℚ := a - b * jsTrunc (a / b)

/-- JS `x.toFixed(1)`. -/
def toFixed1 (q : ℚ) : String :=
  let n : ℤ := ⌊q * 10 + 1 / 2⌋
  if n < 0 then
    "-" ++ toString (n.natAbs / 10) ++ "." ++ toString (n.natAbs % 10)
  else
    toString (n.toNat / 10) ++ "." ++ toString (n.toNat % 10)

/-- JS `s.padStart(2, "0")`. -/
def padStart2 (s : String) : String :=
  String.mk (List.replicate (2 - s.length) '0') ++ s

/-- The value `etaSeconds` as computed in `streamOutput` (source lines 745–748). -/
def etaSeconds (downloadedMB totalMB speedMBps : ℚ) : ℚ :=
  if speedMBps > 0 then (totalMB - downloadedMB) / speedMBps else 0

/-- The four segments of the toast progress message (source lines 752–767);
an optional field is `none` exactly when the corresponding conditional
`progressMsg +=` does not run. -/
structure ProgressMsg where
  base : String
  speedPart : Option String
  etaPart : Option String
  sizePart : Option String

/-- The displayed progress string: concatenation of the built segments. -/
def renderProgressMsg (m : ProgressMsg) : String :=
  m.base ++ m.speedPart.getD "" ++ m.etaPart.getD "" ++ m.sizePart.getD ""

/-- The progress-message construction in `streamOutput`
(source lines 751–769). -/
def buildProgressMsg (percentage downloadedMB totalMB speedMBps eta : ℚ) :
    ProgressMsg :=
  { base := "Downloading... " ++ toFixed1 percentage ++ "%"
  , speedPart :=
      if speedMBps > 0 then some (" | " ++ toFixed1 speedMBps ++ " MB/s") else none
  , etaPart :=
      if 0 < eta ∧ eta < 3600 then
        some (" | ETA " ++ toString ⌊eta / 60⌋ ++ ":" ++
          padStart2 (toString ⌊jsMod eta 60⌋))
      else none
  , sizePart :=
      if downloadedMB > 0 ∧ totalMB > 0 then
        some (" | " ++ toFixed1 downloadedMB ++ "/" ++ toFixed1 totalMB ++ " MB")
      else none }

/-! ## Outcome Classifier (the `catch` block of `handleSubmit`,
source lines 944–1016) -/

/-- The fields of the caught `execa` error that the classifier reads.
String fields model `undefined` as `""` (both are JS-falsy and the source
only tests truthiness, compares, or interpolates them). -/
structure ExecError where
  isCanceled : Bool
  code : String
  command : String
  isTimeout : Bool
  durationMs : Nat
  stderr : String
  stdout : String
  shortMessage : String
  message : String

/-- JS `command.split(" ")[0]`. -/
def firstToken (s : String) : String :=
  String.mk (s.data.takeWhile (fun c => c != ' '))

/-- JS `out.split("\n")` on character lists. -/
def splitLinesChars : List Char → List (List Char)
  | [] => [[]]
  | c :: cs =>
    if c = '\n' then [] :: splitLinesChars cs
    else
      match splitLinesChars cs with
      | [] => [[c]]
      | l :: ls => (c :: l) :: ls

/-- JS `out.split("\n").find((l) => l.toLowerCase().startsWith("error:"))`
(source line 997). -/
def findErrorLine (out : String) : Option String :=
  ((splitLinesChars out.data).find?
    (fun l => prefixChars "error:".data (l.map Char.toLower))).map String.mk

/-- The ordered marker scan over the accumulated output, first match wins
(source lines 982–998), yielding the user-facing message. -/
def scanOutputMessage (out : String) : String :=
  if containsSubStr out "Unsupported URL" then "Unsupported URL."
  else if containsSubStr out "Video unavailable" then "Video unavailable."
  else if containsSubStr out "Requested format is not available" then
    "Video format not available. Try a different quality setting."
  else if containsSubStr out "nsig extraction failed" then
    "YouTube playback issue detected. The video was likely still downloaded successfully."
  else if containsSubStr out "Some formats may be missing" then
    "Some video qualities unavailable, but download should still work."
  else if containsSubStr out "HTTP Error 403" then
    "Access denied by YouTube. Try again in a few minutes."
  else if containsSubStr out "Private video" then
    "This video is private and cannot be downloaded."
  else if containsSubStr out "This live event has ended" then
    "This live stream has ended and may not be available for download."
  else
    match findErrorLine out with
    | some l => l
    | none => "An error occurred. Check console."

/-- The terminal toast state produced by the `catch` block: style/title,
the (truncated) user message, the copyable error details, and whether a
copy action is offered. -/
structure ToastOutcome where
  failed : Bool
  title : String
  message : String
  errorDetails : String
  hasCopyAction : Bool
deriving DecidableEq

/-- The `catch` block of `handleSubmit` (source lines 944–1016) as a pure
classifier of the error record and accumulated output. -/
def classifyDownloadError (e : ExecError) (fullOutput ytDlpPath : String) :
    ToastOutcome :=
  let details0 := "Error: " ++ jsOr e.message "Unknown error"
  let details1 :=
    if fullOutput ≠ "" ∧ e.isCanceled = false then
      details0 ++ "\n\nOutput:\n" ++ fullOutput
    else details0
  let picked :=
    if e.isCanceled then
      ("Download was cancelled by the user.", "Download was cancelled by the user.")
    else if e.code = "ENOENT" then
      ("Failed to execute " ++ firstToken e.command ++ ". Path: " ++ ytDlpPath,
        "ENOENT: Command not found. Tried to run \x27" ++ firstToken e.command ++
          "\x27 at path \x27" ++ ytDlpPath ++
          "\x27. Ensure it is correctly installed and accessible.")
    else if e.isTimeout then
      ("Download timed out.",
        "Timeout: The command \x27" ++ e.command ++ "\x27 timed out after " ++
          toString e.durationMs ++ "ms.")
    else if fullOutput ≠ "" ∨ e.stderr ≠ "" ∨ e.stdout ≠ "" then
      (scanOutputMessage (jsOr fullOutput (jsOr e.stderr e.stdout)), details1)
    else if e.shortMessage ≠ "" then
      (e.shortMessage, details1)
    else
      ("Failed to download video.", details1)
  { failed := !e.isCanceled
  , title := if e.isCanceled then "Download Cancelled" else "Download Failed"
  , message := jsSubstringTo250 picked.1
  , errorDetails := picked.2
  , hasCopyAction := !e.isCanceled }

/-- Modelled from the spec: the cancellation handle (`cancelDownload`,
source lines 785–790) kills the live process, and the supervisor resolves
the race with natural exit by "treating any termination after a cancel
request as Cancelled" — the process library marks the resulting rejection
as canceled, which the classifier reads as `isCanceled`.  The kill/flag
linkage itself lives in the external process library, not in this
repository, so it is taken from the spec. -/
def superviseOutcome (cancelRequested : Bool) (e : ExecError)
    (fullOutput ytDlpPath : String) : ToastOutcome :=
  classifyDownloadError { e with isCanceled := cancelRequested || e.isCanceled }
    fullOutput ytDlpPath

/-! ## Theorems -/

theorem containsSubStr_of_data_split (s pat : String) (a : List Char)
    (h : s.data = a ++ pat.data) : containsSubStr s pat = true := by
  unfold containsSubStr
  rw [h]
  exact listContains_append_self a pat.data

/-- C1 (counterexample): in VideoOnly mode with the numeric cap 720p, the final
fallback alternative of the generated format expression is the height-capped
clause `best[height<=720]`, not the unconstrained clause `best`. -/
theorem videoOnly_capped_final_not_unconstrained :
    (formatAlternativesVideoOnly "720p").getLast? = some "best[height<=720]" ∧
    (formatAlternativesVideoOnly "720p").getLast? ≠ some "best" := by
  decide

/-- C1 (amended): the VideoAudio expression ends in the unconstrained clause
`best` for every quality target, and so does the VideoOnly expression for the
"best" target; for a numeric cap the VideoOnly expression instead ends in the
height-capped, container-free clause `best[height<=H]`. -/
theorem format_final_alternative (q : String) (h : q ≠ "best") :
    (∀ r : String, (formatAlternativesVideoAudio r).getLast? = some "best") ∧
    (formatAlternativesVideoOnly "best").getLast? = some "best" ∧
    (formatAlternativesVideoOnly q).getLast? =
      some ("best[height<=" ++ jsReplaceFirst q "p" "" ++ "]") := by
  refine ⟨fun r => ?_, by decide, ?_⟩
  · by_cases hr : r = "best"
    · subst hr; decide
    · simp only [formatAlternativesVideoAudio, if_pos hr]
      rfl
  · simp only [formatAlternativesVideoOnly, if_pos h]
    rfl

/-- C1 (witness): the amended statement at the concrete cap 720p. -/
theorem format_final_alternative_witness :
    ("720p" : String) ≠ "best" ∧
    (formatAlternativesVideoOnly "720p").getLast? =
      some ("best[height<=" ++ jsReplaceFirst "720p" "p" "" ++ "]") :=
  ⟨by decide, (format_final_alternative "720p" (by decide)).2.2⟩

/-- C2: when cancellation was requested before termination, the outcome is
Cancelled for every exit record and every accumulated output — including
outputs already containing substrings that would otherwise classify as a
Failed pattern. -/
theorem cancelled_overrides_everything (e : ExecError) (fullOutput p : String) :
    (superviseOutcome true e fullOutput p).failed = false ∧
    (superviseOutcome true e fullOutput p).title = "Download Cancelled" ∧
    (superviseOutcome true e fullOutput p).message =
      "Download was cancelled by the user." := by
  refine ⟨?_, ?_, ?_⟩
  · simp [superviseOutcome, classifyDownloadError]
  · simp [superviseOutcome, classifyDownloadError]
  · simp only [superviseOutcome, classifyDownloadError]
    simp
    decide

/-- Error record with both the timeout flag and the `ENOENT` spawn-failure
code set, to separate the two classification orders. -/
def timeoutEnoentErr : ExecError :=
  { isCanceled := false, code := "ENOENT", command := "yt-dlp -f best"
  , isTimeout := true, durationMs := 900000, stderr := "", stdout := ""
  , shortMessage := "", message := "boom" }

/-- C3 (counterexample): on an exit carrying both the timeout flag and the
executable-not-found code, the classifier reports the executable-not-found
message, not the timeout message — so timeout is NOT checked before
executable-not-found. -/
theorem enoent_checked_before_timeout :
    (classifyDownloadError timeoutEnoentErr "" "/usr/local/bin/yt-dlp").message =
      "Failed to execute yt-dlp. Path: /usr/local/bin/yt-dlp" ∧
    (classifyDownloadError timeoutEnoentErr "" "/usr/local/bin/yt-dlp").message ≠
      "Download timed out." := by
  decide

/-- C3 (amended): the classifier settles terminal conditions in the fixed
order cancellation, then executable-not-found, then timeout, and only after
all three inspects the accumulated output; whenever an earlier condition
holds, the result is independent of the accumulated text. -/
theorem classifier_evaluation_order (e : ExecError) (out alt p : String) :
    (e.isCanceled = true →
      classifyDownloadError e out p = classifyDownloadError e alt p ∧
      (classifyDownloadError e out p).title = "Download Cancelled") ∧
    (e.isCanceled = false → e.code = "ENOENT" →
      classifyDownloadError e out p = classifyDownloadError e alt p ∧
      (classifyDownloadError e out p).message =
        jsSubstringTo250 ("Failed to execute " ++ firstToken e.command ++ ". Path: " ++ p)) ∧
    (e.isCanceled = false → e.code ≠ "ENOENT" → e.isTimeout = true →
      classifyDownloadError e out p = classifyDownloadError e alt p ∧
      (classifyDownloadError e out p).message = "Download timed out.") := by
  refine ⟨fun h1 => ⟨?_, ?_⟩, fun h1 h2 => ⟨?_, ?_⟩, fun h1 h2 h3 => ⟨?_, ?_⟩⟩
  · simp [classifyDownloadError, h1]
  · simp [classifyDownloadError, h1]
  · simp [classifyDownloadError, h1, h2]
  · simp [classifyDownloadError, h1, h2]
  · simp [classifyDownloadError, h1, h2, h3]
  · simp only [classifyDownloadError, h1, h2, h3]
    simp
    decide

/-- Error record with only the timeout flag set. -/
def timeoutOnlyErr : ExecError :=
  { isCanceled := false, code := "ETIMEDOUT", command := "yt-dlp"
  , isTimeout := true, durationMs := 900000, stderr := "", stdout := ""
  , shortMessage := "", message := "timed out" }

/-- C3 (witness): the amended order at a concrete timed-out exit whose
accumulated text would otherwise match a Failed pattern. -/
theorem classifier_evaluation_order_witness :
    (classifyDownloadError timeoutOnlyErr "ERROR: Private video" "/p").message =
      "Download timed out." :=
  ((classifier_evaluation_order timeoutOnlyErr "ERROR: Private video" "x" "/p").2.2
    rfl (by decide) rfl).2

/-- C5: the Compression Planner maps None to no postprocessor arguments,
Light/Medium/High to CRF 20/23/28, and Custom to the user CRF verbatim
(no clamping); active compression re-encodes audio at 128 kbps in VideoAudio
mode, while VideoOnly mode emits only the video codec/CRF part with no audio
argument. -/
theorem compression_planner_mapping (crf : String) :
    postprocessorArgsVideoAudio "none" crf = none ∧
    postprocessorArgsVideoOnly "none" crf = none ∧
    postprocessorArgsVideoAudio "light" crf =
      some "ffmpeg:-c:v libx264 -crf 20 -c:a aac -b:a 128k" ∧
    postprocessorArgsVideoAudio "medium" crf =
      some "ffmpeg:-c:v libx264 -crf 23 -c:a aac -b:a 128k" ∧
    postprocessorArgsVideoAudio "high" crf =
      some "ffmpeg:-c:v libx264 -crf 28 -c:a aac -b:a 128k" ∧
    postprocessorArgsVideoAudio "custom" crf =
      some ("ffmpeg:-c:v libx264 -crf " ++ crf ++ " -c:a aac -b:a 128k") ∧
    postprocessorArgsVideoOnly "light" crf = some "ffmpeg:-c:v libx264 -crf 20" ∧
    postprocessorArgsVideoOnly "medium" crf = some "ffmpeg:-c:v libx264 -crf 23" ∧
    postprocessorArgsVideoOnly "high" crf = some "ffmpeg:-c:v libx264 -crf 28" ∧
    postprocessorArgsVideoOnly "custom" crf =
      some ("ffmpeg:-c:v libx264 -crf " ++ crf) ∧
    containsSubStr ("ffmpeg:-c:v libx264 -crf " ++ crf ++ " -c:a aac -b:a 128k")
      "-b:a 128k" = true ∧
    containsSubStr "ffmpeg:-c:v libx264 -crf 20" "-c:a" = false ∧
    containsSubStr "ffmpeg:-c:v libx264 -crf 23" "-c:a" = false ∧
    containsSubStr "ffmpeg:-c:v libx264 -crf 28" "-c:a" = false := by
  refine ⟨?_, ?_, ?_, ?_, ?_, ?_, ?_, ?_, ?_, ?_, ?_, by decide, by decide, by decide⟩
  · simp [postprocessorArgsVideoAudio]
  · simp [postprocessorArgsVideoOnly]
  · simp [postprocessorArgsVideoAudio, crfValue]
  · simp [postprocessorArgsVideoAudio, crfValue]
  · simp [postprocessorArgsVideoAudio, crfValue]
  · simp [postprocessorArgsVideoAudio, crfValue]
  · simp [postprocessorArgsVideoOnly, crfValue]
  · simp [postprocessorArgsVideoOnly, crfValue]
  · simp [postprocessorArgsVideoOnly, crfValue]
  · simp [postprocessorArgsVideoOnly, crfValue]
  · refine containsSubStr_of_data_split _ _
      ("ffmpeg:-c:v libx264 -crf ".data ++ crf.data ++ " -c:a aac ".data) ?_
    have hd : (" -c:a aac -b:a 128k" : String).data =
        (" -c:a aac " : String).data ++ ("-b:a 128k" : String).data := by decide
    simp [String.data_append, hd]

/-- C4: with no cancellation, no spawn failure, no timeout, and non-empty
accumulated output, the classifier scans the text for marker substrings in a
fixed priority order, first match winning; in particular text containing
"Private video" and no higher-priority marker yields the private-video
message, and with no marker at all the first line starting with "error:"
(case-insensitively) is surfaced. -/
theorem marker_scan_priority (e : ExecError) (fullOutput p : String)
    (hc : e.isCanceled = false) (he : e.code ≠ "ENOENT")
    (ht : e.isTimeout = false) (ho : fullOutput ≠ "") :
    (containsSubStr fullOutput "Unsupported URL" = true →
      (classifyDownloadError e fullOutput p).message = "Unsupported URL.") ∧
    (containsSubStr fullOutput "Unsupported URL" = false →
      containsSubStr fullOutput "Video unavailable" = true →
      (classifyDownloadError e fullOutput p).message = "Video unavailable.") ∧
    (containsSubStr fullOutput "Unsupported URL" = false →
      containsSubStr fullOutput "Video unavailable" = false →
      containsSubStr fullOutput "Requested format is not available" = true →
      (classifyDownloadError e fullOutput p).message =
        "Video format not available. Try a different quality setting.") ∧
    (containsSubStr fullOutput "Unsupported URL" = false →
      containsSubStr fullOutput "Video unavailable" = false →
      containsSubStr fullOutput "Requested format is not available" = false →
      containsSubStr fullOutput "nsig extraction failed" = true →
      (classifyDownloadError e fullOutput p).message =
        "YouTube playback issue detected. The video was likely still downloaded successfully.") ∧
    (containsSubStr fullOutput "Unsupported URL" = false →
      containsSubStr fullOutput "Video unavailable" = false →
      containsSubStr fullOutput "Requested format is not available" = false →
      containsSubStr fullOutput "nsig extraction failed" = false →
      containsSubStr fullOutput "Some formats may be missing" = true →
      (classifyDownloadError e fullOutput p).message =
        "Some video qualities unavailable, but download should still work.") ∧
    (containsSubStr fullOutput "Unsupported URL" = false →
      containsSubStr fullOutput "Video unavailable" = false →
      containsSubStr fullOutput "Requested format is not available" = false →
      containsSubStr fullOutput "nsig extraction failed" = false →
      containsSubStr fullOutput "Some formats may be missing" = false →
      containsSubStr fullOutput "HTTP Error 403" = true →
      (classifyDownloadError e fullOutput p).message =
        "Access denied by YouTube. Try again in a few minutes.") ∧
    (containsSubStr fullOutput "Unsupported URL" = false →
      containsSubStr fullOutput "Video unavailable" = false →
      containsSubStr fullOutput "Requested format is not available" = false →
      containsSubStr fullOutput "nsig extraction failed" = false →
      containsSubStr fullOutput "Some formats may be missing" = false →
      containsSubStr fullOutput "HTTP Error 403" = false →
      containsSubStr fullOutput "Private video" = true →
      (classifyDownloadError e fullOutput p).message =
        "This video is private and cannot be downloaded.") ∧
    (containsSubStr fullOutput "Unsupported URL" = false →
      containsSubStr fullOutput "Video unavailable" = false →
      containsSubStr fullOutput "Requested format is not available" = false →
      containsSubStr fullOutput "nsig extraction failed" = false →
      containsSubStr fullOutput "Some formats may be missing" = false →
      containsSubStr fullOutput "HTTP Error 403" = false →
      containsSubStr fullOutput "Private video" = false →
      containsSubStr fullOutput "This live event has ended" = true →
      (classifyDownloadError e fullOutput p).message =
        "This live stream has ended and may not be available for download.") ∧
    (containsSubStr fullOutput "Unsupported URL" = false →
      containsSubStr fullOutput "Video unavailable" = false →
      containsSubStr fullOutput "Requested format is not available" = false →
      containsSubStr fullOutput "nsig extraction failed" = false →
      containsSubStr fullOutput "Some formats may be missing" = false →
      containsSubStr fullOutput "HTTP Error 403" = false →
      containsSubStr fullOutput "Private video" = false →
      containsSubStr fullOutput "This live event has ended" = false →
      (classifyDownloadError e fullOutput p).message =
        jsSubstringTo250 ((findErrorLine fullOutput).getD "An error occurred. Check console.")) := by
  refine ⟨fun m1 => ?_, fun m1 m2 => ?_, fun m1 m2 m3 => ?_, fun m1 m2 m3 m4 => ?_,
    fun m1 m2 m3 m4 m5 => ?_, fun m1 m2 m3 m4 m5 m6 => ?_,
    fun m1 m2 m3 m4 m5 m6 m7 => ?_, fun m1 m2 m3 m4 m5 m6 m7 m8 => ?_,
    fun m1 m2 m3 m4 m5 m6 m7 m8 => ?_⟩
  · simp [classifyDownloadError, scanOutputMessage, jsOr, hc, he, ht, ho, m1]
    decide
  · simp [classifyDownloadError, scanOutputMessage, jsOr, hc, he, ht, ho, m1, m2]
    decide
  · simp [classifyDownloadError, scanOutputMessage, jsOr, hc, he, ht, ho, m1, m2, m3]
    decide
  · simp [classifyDownloadError, scanOutputMessage, jsOr, hc, he, ht, ho, m1, m2, m3, m4]
    decide
  · simp [classifyDownloadError, scanOutputMessage, jsOr, hc, he, ht, ho, m1, m2, m3, m4,
      m5]
    decide
  · simp [classifyDownloadError, scanOutputMessage, jsOr, hc, he, ht, ho, m1, m2, m3, m4,
      m5, m6]
    decide
  · simp [classifyDownloadError, scanOutputMessage, jsOr, hc, he, ht, ho, m1, m2, m3, m4,
      m5, m6, m7]
    decide
  · simp [classifyDownloadError, scanOutputMessage, jsOr, hc, he, ht, ho, m1, m2, m3, m4,
      m5, m6, m7, m8]
    decide
  · simp [classifyDownloadError, scanOutputMessage, jsOr, hc, he, ht, ho, m1, m2, m3, m4,
      m5, m6, m7, m8]
    cases hfe : findErrorLine fullOutput <;> simp [hfe]

/-- Error record of a clean-looking nonzero exit (no cancel, no spawn
failure, no timeout). -/
def cleanExitErr : ExecError :=
  { isCanceled := false, code := "", command := "yt-dlp"
  , isTimeout := false, durationMs := 0, stderr := "", stdout := ""
  , shortMessage := "", message := "Command failed with exit code 1" }

/-- C4 (witness): accumulated text containing "Private video" and no
higher-priority marker classifies as the private-video message. -/
theorem marker_scan_priority_witness :
    (classifyDownloadError cleanExitErr "ERROR: Private video" "/p").message =
      "This video is private and cannot be downloaded." :=
  (marker_scan_priority cleanExitErr "ERROR: Private video" "/p"
      rfl (by decide) rfl (by decide)).2.2.2.2.2.2.1
    (by decide) (by decide) (by decide) (by decide) (by decide) (by decide) (by decide)

/-- Error record of a spawn failure (`ENOENT`) occurring together with
nonempty accumulated output. -/
def enoentWithOutputErr : ExecError :=
  { isCanceled := false, code := "ENOENT", command := "yt-dlp"
  , isTimeout := false, durationMs := 0, stderr := "", stdout := ""
  , shortMessage := "", message := "spawn yt-dlp ENOENT" }

/-- C9 (counterexample): a Failed outcome classified as executable-not-found
does NOT retain the accumulated output in its copyable error details — the
details are overwritten with a fixed ENOENT explanation. -/
theorem enoent_failed_details_drop_output :
    (classifyDownloadError enoentWithOutputErr "UNIQUEMARKER123" "/p").failed = true ∧
    containsSubStr
      (classifyDownloadError enoentWithOutputErr "UNIQUEMARKER123" "/p").errorDetails
      "UNIQUEMARKER123" = false := by
  decide

/-- C9 (amended): for every Failed outcome other than executable-not-found
and timeout, the full accumulated output is retained verbatim inside the
copyable error details and a copy action is offered; for every Cancelled
outcome the details are exactly the short fixed cancellation message and no
copy action is offered. -/
theorem failed_details_retention (e : ExecError) (fullOutput p : String) :
    (e.isCanceled = false → e.code ≠ "ENOENT" → e.isTimeout = false →
      (classifyDownloadError e fullOutput p).failed = true ∧
      containsSubStr (classifyDownloadError e fullOutput p).errorDetails
        fullOutput = true ∧
      (classifyDownloadError e fullOutput p).hasCopyAction = true) ∧
    (e.isCanceled = true →
      (classifyDownloadError e fullOutput p).errorDetails =
        "Download was cancelled by the user." ∧
      (classifyDownloadError e fullOutput p).hasCopyAction = false) := by
  constructor
  · intro h1 h2 h3
    refine ⟨by simp [classifyDownloadError, h1], ?_, by simp [classifyDownloadError, h1]⟩
    by_cases hfo : fullOutput = ""
    · subst hfo
      exact containsSubStr_empty _
    · have hdet : (classifyDownloadError e fullOutput p).errorDetails =
          ("Error: " ++ jsOr e.message "Unknown error" ++ "\n\nOutput:\n") ++ fullOutput := by
        simp [classifyDownloadError, h1, h2, h3, hfo]
      rw [hdet]
      exact containsSubStr_append _ _
  · intro h1
    constructor
    · simp [classifyDownloadError, h1]
    · simp [classifyDownloadError, h1]

/-- C9 (witness): the amended statement at a concrete text-bearing failure
and at a concrete cancellation. -/
theorem failed_details_retention_witness :
    containsSubStr
      (classifyDownloadError cleanExitErr "SOMEDIAGNOSTICTEXT" "/p").errorDetails
      "SOMEDIAGNOSTICTEXT" = true ∧
    (classifyDownloadError { cleanExitErr with isCanceled := true }
        "SOMEDIAGNOSTICTEXT" "/p").errorDetails =
      "Download was cancelled by the user." :=
  ⟨((failed_details_retention cleanExitErr "SOMEDIAGNOSTICTEXT" "/p").1
      rfl (by decide) rfl).2.1,
   ((failed_details_retention { cleanExitErr with isCanceled := true }
      "SOMEDIAGNOSTICTEXT" "/p").2 rfl).1⟩

/-- C6: the Size Estimator bitrate table, compression-factor table
(including the custom-CRF formula and its values at CRF 18 and 30), and the
size formula, with the concrete 600 s / 1080p / no-compression / VideoAudio
instance. -/
theorem size_estimator_model :
    (videoBitrate "best" = 8000 ∧ videoBitrate "2160p" = 8000 ∧
      videoBitrate "1440p" = 4000 ∧ videoBitrate "1080p" = 2000 ∧
      videoBitrate "720p" = 1000 ∧ videoBitrate "480p" = 500) ∧
    (∀ crf : ℚ, compressionFactor "light" crf = 0.8 ∧
      compressionFactor "medium" crf = 0.6 ∧
      compressionFactor "high" crf = 0.4 ∧
      compressionFactor "custom" crf = max 0.3 (1 - (crf - 18) * 0.04)) ∧
    compressionFactor "custom" 18 = 1 ∧
    compressionFactor "custom" 30 = 0.52 ∧
    (∀ (q lvl : String) (crf d : ℚ),
      estimatedMB "mp4_video_audio" q lvl crf "5" d =
        videoBitrate q * (if lvl ≠ "none" then compressionFactor lvl crf else 1) *
            d / (8 * 1024) +
          (if lvl ≠ "none" then (128 : ℚ) else 256) * d / (8 * 1024) ∧
      estimatedMB "mp4_video_only" q lvl crf "5" d =
        videoBitrate q * (if lvl ≠ "none" then compressionFactor lvl crf else 1) *
          d / (8 * 1024)) ∧
    estimatedMB "mp4_video_audio" "1080p" "none" 23 "5" 600 =
      2000 * 600 / (8 * 1024) + 256 * 600 / (8 * 1024) := by
  refine ⟨⟨by decide, by decide, by decide, by decide, by decide, by decide⟩,
    fun crf => ⟨by simp [compressionFactor], by simp [compressionFactor],
      by simp [compressionFactor], by simp [compressionFactor]⟩, ?_, ?_, ?_, ?_⟩
  · simp [compressionFactor]
    norm_num
  · simp [compressionFactor]
    norm_num
  · intro q lvl crf d
    constructor
    · by_cases hl : lvl = "none" <;> simp [estimatedMB, hl, mul_comm, mul_assoc]
    · by_cases hl : lvl = "none" <;> simp [estimatedMB, hl, mul_comm, mul_assoc]
  · simp [estimatedMB, videoBitrate]

/-- C7: `parseSize`/`parseSpeed` canonicalize to MB by the shared unit table
(KB/KiB divide by 1024, MB/MiB unchanged, GB/GiB multiply by 1024,
unrecognized units treated as raw bytes divided by 1048576; see the exact
statement), with the concrete evaluations on "1.5GiB" and "500KiB/s". -/
theorem size_speed_canonicalization :
    parseSize "1.5GiB" = some 1536 ∧
    parseSpeed "500KiB/s" = some (500 / 1024 : ℚ) ∧
    (∀ v : ℚ, unitToMB "kb" v = v / 1024 ∧ unitToMB "kib" v = v / 1024 ∧
      unitToMB "mb" v = v ∧ unitToMB "mib" v = v ∧
      unitToMB "gb" v = v * 1024 ∧ unitToMB "gib" v = v * 1024 ∧
      unitToMB "b" v = v / 1024 / 1024) := by
  refine ⟨?_, ?_, fun v => ⟨by simp [unitToMB], by simp [unitToMB], by simp [unitToMB],
    by simp [unitToMB], by simp [unitToMB], by simp [unitToMB], by simp [unitToMB]⟩⟩
  · have h : findSizeMatch "1.5GiB".data = some (['1', '.', '5'], ['G', 'i', 'B']) := by
      decide
    have h2 : jsParseFloat ['1', '.', '5'] = some (3 / 2 : ℚ) := by
      have t1 : List.takeWhile Char.isDigit ['1', '.', '5'] = ['1'] := by decide
      have t3 : List.takeWhile Char.isDigit ['5'] = ['5'] := by decide
      have t4 : digitsToNat ['1'] = 1 := by decide
      have t5 : digitsToNat ['5'] = 5 := by decide
      simp only [jsParseFloat, t1, t3, t4, t5, List.length_cons, List.length_nil,
        List.drop]
      norm_num
    have h3 : String.mk (['G', 'i', 'B'].map Char.toLower) = "gib" := by decide
    simp only [parseSize, h, h2, h3]
    simp [unitToMB]
    norm_num
  · have h : findSpeedMatch "500KiB/s".data = some (['5', '0', '0'], ['K', 'i', 'B']) := by
      decide
    have h2 : jsParseFloat ['5', '0', '0'] = some (500 : ℚ) := by
      have t1 : List.takeWhile Char.isDigit ['5', '0', '0'] = ['5', '0', '0'] := by decide
      have t4 : digitsToNat ['5', '0', '0'] = 500 := by decide
      simp only [jsParseFloat, t1, t4, List.length_cons, List.length_nil, List.drop]
      norm_num
      exact fun hx => List.noConfusion hx
    have h3 : String.mk (['K', 'i', 'B'].map Char.toLower) = "kib" := by decide
    simp only [parseSpeed, h, h2, h3]
    simp [unitToMB]

/-- C8: the ETA is `(total − downloaded) / speed` exactly when the parsed
speed is strictly positive (and `0` otherwise), an ETA of 3600 s or more is
never shown in the progress message, and an ETA strictly between 0 and
3600 s always is. -/
theorem eta_computation_and_display (pct downloadedMB totalMB speedMBps : ℚ) :
    (speedMBps > 0 →
      etaSeconds downloadedMB totalMB speedMBps = (totalMB - downloadedMB) / speedMBps) ∧
    (¬ speedMBps > 0 → etaSeconds downloadedMB totalMB speedMBps = 0) ∧
    (∀ eta : ℚ, eta ≥ 3600 →
      (buildProgressMsg pct downloadedMB totalMB speedMBps eta).etaPart = none) ∧
    (∀ eta : ℚ, 0 < eta → eta < 3600 →
      (buildProgressMsg pct downloadedMB totalMB speedMBps eta).etaPart.isSome = true) := by
  refine ⟨fun h => by simp [etaSeconds, h], fun h => by simp [etaSeconds, h],
    fun eta h => ?_, fun eta h1 h2 => ?_⟩
  · have hn : ¬ (0 < eta ∧ eta < 3600) := fun hh => absurd hh.2 (not_lt.2 h)
    simp [buildProgressMsg, hn]
  · simp [buildProgressMsg, h1, h2]

/-- C8 (witness): the theorem at percentage 50, 0 of 90 MB at 1 MB/s
(ETA 90 s, shown) and at a synthetic 7200 s ETA (suppressed). -/
theorem eta_computation_and_display_witness :
    etaSeconds 0 90 1 = (90 - 0) / 1 ∧
    (buildProgressMsg 50 0 90 1 90).etaPart.isSome = true ∧
    (buildProgressMsg 50 0 90 1 7200).etaPart = none :=
  ⟨(eta_computation_and_display 50 0 90 1).1 (by norm_num),
   (eta_computation_and_display 50 0 90 1).2.2.2 90 (by norm_num) (by norm_num),
   (eta_computation_and_display 50 0 90 1).2.2.1 7200 (by norm_num)⟩

theorem findSizeMatch_eq_none (l : List Char)
    (h : ∀ c ∈ l, isDigitDotChar c = false) : findSizeMatch l = none := by
  induction l with
  | nil => rfl
  | cons c cs ih =>
    have hc : isDigitDotChar c = false := h c (by simp)
    have hrest : ∀ x ∈ cs, isDigitDotChar x = false := fun x hx => h x (by simp [hx])
    have hm : matchSizeAt (c :: cs) = none := by
      simp [matchSizeAt, List.takeWhile_cons, hc]
    simp [findSizeMatch, hm, ih hrest]

theorem findSpeedMatch_eq_none (l : List Char)
    (h : ∀ c ∈ l, isDigitDotChar c = false) : findSpeedMatch l = none := by
  induction l with
  | nil => rfl
  | cons c cs ih =>
    have hc : isDigitDotChar c = false := h c (by simp)
    have hrest : ∀ x ∈ cs, isDigitDotChar x = false := fun x hx => h x (by simp [hx])
    have hm : matchSpeedAt (c :: cs) = none := by
      simp [matchSpeedAt, List.takeWhile_cons, hc]
    simp [findSpeedMatch, hm, ih hrest]

/-- C10: `parseSize` and `parseSpeed` are total: on every string in which
the number-followed-by-unit pattern does not match (in particular every
string without digit or dot characters, and the empty string) they return
the defined value 0 — never an exception or an undefined result. -/
theorem parse_size_speed_total (s : String) :
    (findSizeMatch s.data = none → parseSize s = some 0) ∧
    (findSpeedMatch s.data = none → parseSpeed s = some 0) ∧
    ((∀ c ∈ s.data, isDigitDotChar c = false) →
      parseSize s = some 0 ∧ parseSpeed s = some 0) := by
  refine ⟨fun h => by simp [parseSize, h], fun h => by simp [parseSpeed, h], fun h => ?_⟩
  exact ⟨by simp [parseSize, findSizeMatch_eq_none _ h],
    by simp [parseSpeed, findSpeedMatch_eq_none _ h]⟩

/-- C10 (witness): totality at the empty string and at a digit-free string. -/
theorem parse_size_speed_total_witness :
    parseSize "" = some 0 ∧ parseSpeed "" = some 0 ∧
    parseSize "no size here" = some 0 ∧ parseSpeed "no size here" = some 0 :=
  ⟨(parse_size_speed_total "").1 (by decide),
   (parse_size_speed_total "").2.1 (by decide),
   ((parse_size_speed_total "no size here").2.2 (by decide)).1,
   ((parse_size_speed_total "no size here").2.2 (by decide)).2⟩
